import Mathlib

/-!
Verification of the beta-carotene yield sweep and plotting scripts.

The embedding models:
- `src/src/plotting/generate_beta_carotene_yield_df.py`
  (`generate_beta_carotene_yield_df`, `max_beta_carotene_production_from_oleic_acid`)
- `src/src/plotting/plot_beta_carotene_and_co2_yield.py`
  (`plot_beta_carotene_and_co2_yield`)

Python floats are modelled as exact rationals (`ℚ`); the model's medium
(a Python dict from exchange-reaction name to bound) is modelled as a
function `String → Option ℚ` with pointwise update; the external
`straindesign.fba` solver is an abstract function from a reified solve
call to `Option FBASolution`, `none` standing for an infeasible solve
(a raised exception in Python).  A missing key in a flux mapping is a
`none` lookup, standing for Python's `KeyError`.
-/

/-- One row of the result table built by the sweep
(`{'g_glucose': ..., 'g_oleic_acid': ..., 'g_beta_carotene': ..., 'g_co2': ...}`). -/
structure SweepPoint where
  g_glucose : ℚ
  g_oleic_acid : ℚ
  g_beta_carotene : ℚ
  g_co2 : ℚ
deriving DecidableEq, Repr

/-- The medium of a metabolic model: a mapping from exchange-reaction
identifier to an uptake bound (a Python dict). -/
def Medium : Type := String → Option ℚ

/-- Pointwise dict update: `medium[k] = v`. -/
def mediumSet (m : Medium) (k : String) (v : ℚ) : Medium :=
  fun k' => if k' = k then some v else m k'

/-- The externally supplied metabolic model, of which the scripts use
only the mutable `medium` attribute. -/
structure Model where
  medium : Medium

/-- The solution object returned by `sd.fba`: an objective value and a
mapping from reaction name to flux. -/
structure FBASolution where
  objective_value : ℚ
  fluxes : String → Option ℚ

/-- A reified call to `sd.fba(model, obj=..., constraints=..., obj_sense=...)`:
the medium state of the model at call time, the objective reaction name, the
equality constraints (reaction = value pairs, as parsed from the constraint
string), and the optimization direction. -/
structure SolveCall where
  mediumState : Medium
  obj : String
  constraints : List (String × ℚ)
  obj_sense : String

/-- The external solver, abstracted: `none` models an infeasible solve. -/
def Solver : Type := SolveCall → Option FBASolution

def glucose_molar_mass : ℚ := 180.16

def oleic_acid_molar_mass : ℚ := 282.47

def beta_carotene_molar_mass : ℚ := 536.87

/-- Gram-to-millimole conversion as written inline in the source:
`mmol = 1000 * g / molar_mass` (lines 26-27). -/
def grams_to_mmol (g molar_mass : ℚ) : ℚ := 1000 * g / molar_mass

/-- Millimole-to-gram conversion as written inline in the source:
`moles = mmol / 1000; grams = moles * molar_mass` (lines 48-57). -/
def mmol_to_grams (mmol molar_mass : ℚ) : ℚ := mmol / 1000 * molar_mass

/-- The medium dict after the ten assignments of lines 29-40, starting
from the model's current medium. -/
def configuredMedium (m : Medium) (mmol_glucose mmol_oleic_acid : ℚ) : Medium :=
  let medium := mediumSet m "EX_glc_e" mmol_glucose
  let medium := mediumSet medium "EX_ocdcea_e" mmol_oleic_acid
  let medium := mediumSet medium "EX_glyc_e" 0
  let medium := mediumSet medium "EX_h2o_e" 10000
  let medium := mediumSet medium "EX_h_e" 10000
  let medium := mediumSet medium "EX_nh4_e" 10000
  let medium := mediumSet medium "EX_o2_e" 10000
  let medium := mediumSet medium "EX_pi_e" 10000
  let medium := mediumSet medium "EX_so4_e" 10000
  mediumSet medium "trehalose_c_tp" 0

/-- The single `sd.fba` call made by
`max_beta_carotene_production_from_oleic_acid` (lines 43-45): the model
carries the freshly configured medium, the objective is `EX_caro_e`
maximization, and the constraint string
`f'EX_glc_e = {-1 * mmol_glucose}, EX_ocdcea_e = {-1*mmol_oleic_acid}'`
is reified as two (reaction, value) equality pairs. -/
def fbaCall (model : Model) (g_glucose g_oleic_acid : ℚ) : SolveCall :=
  let mmol_glucose := 1000 * g_glucose / glucose_molar_mass
  let mmol_oleic_acid := 1000 * g_oleic_acid / oleic_acid_molar_mass
  { mediumState := configuredMedium model.medium mmol_glucose mmol_oleic_acid
    obj := "EX_caro_e"
    constraints := [("EX_glc_e", -1 * mmol_glucose), ("EX_ocdcea_e", -1 * mmol_oleic_acid)]
    obj_sense := "maximize" }

/-- `max_beta_carotene_production_from_oleic_acid(model, g_glucose, g_oleic_acid)`.
Returns the model as mutated by the medium assignment (`model.medium = medium`)
together with `some (beta_carotene_grams, co2_grams)` on success, or `none`
when the solve is infeasible or the flux mapping has no `EX_co2(e)` entry
(an uncaught exception in Python). -/
def max_beta_carotene_production_from_oleic_acid (s : Solver) (model : Model)
    (g_glucose g_oleic_acid : ℚ) : Model × Option (ℚ × ℚ) :=
  let call := fbaCall model g_glucose g_oleic_acid
  let model' : Model := { medium := call.mediumState }
  match s call with
  | none => (model', none)
  | some sol_max =>
    let beta_carotene_mmols := sol_max.objective_value
    let beta_carotene_moles := beta_carotene_mmols / 1000
    let beta_carotene_grams := beta_carotene_moles * beta_carotene_molar_mass
    match sol_max.fluxes "EX_co2(e)" with
    | none => (model', none)
    | some co2_mmols =>
      let co2_moles := co2_mmols / 1000
      let co2_grams := co2_moles * 44.01
      (model', some (beta_carotene_grams, co2_grams))

/-- The loop `for val in range(0, 41)` of `generate_beta_carotene_yield_df`,
processing the `n` step indices `lo, lo+1, ..., lo+n-1` while threading the
shared (mutated) model.  Any per-point failure aborts the whole loop. -/
def sweepAux (s : Solver) : Model → ℕ → ℕ → Option (Model × List SweepPoint)
  | model, _, 0 => some (model, [])
  | model, lo, n + 1 =>
    let g_glucose : ℚ := (lo : ℚ) * 0.025
    let g_oleic_acid : ℚ := 1 - g_glucose
    match max_beta_carotene_production_from_oleic_acid s model g_glucose g_oleic_acid with
    | (_, none) => none
    | (model', some pr) =>
      match sweepAux s model' (lo + 1) n with
      | none => none
      | some (modelEnd, pts) =>
        some (modelEnd,
          { g_glucose := g_glucose, g_oleic_acid := g_oleic_acid,
            g_beta_carotene := pr.1, g_co2 := pr.2 } :: pts)

/-- `generate_beta_carotene_yield_df(model)`: the 41-point sweep, returning
the assembled table (the DataFrame rows, in insertion order), or `none` when
any per-point solve fails. -/
def generate_beta_carotene_yield_df (s : Solver) (model : Model) :
    Option (List SweepPoint) :=
  Option.map Prod.snd (sweepAux s model 0 41)

/-- One `plt.plot` invocation: x data, y data, marker, line style, color
and legend label. -/
structure PlottedSeries where
  xs : List ℚ
  ys : List ℚ
  marker : Option String
  linestyle : String
  color : String
  label : Option String
deriving DecidableEq, Repr

/-- `plot_beta_carotene_and_co2_yield(beta_carotene_yield_df)`: the four
`plt.plot` calls issued in order, with the first/last-row extraction
(`iloc[[0]]`, `iloc[[-1]]`) failing (`none`) on an empty table. -/
def plot_beta_carotene_and_co2_yield (df : List SweepPoint) :
    Option (List PlottedSeries) :=
  match df.head?, df.getLast? with
  | some first_point, some last_point => some
    [ { xs := df.map SweepPoint.g_oleic_acid
        ys := df.map SweepPoint.g_beta_carotene
        marker := some "o", linestyle := "-", color := "blue"
        label := some "Beta-Carotene Yield (g/g)" },
      { xs := [first_point.g_oleic_acid, last_point.g_oleic_acid]
        ys := [first_point.g_beta_carotene, last_point.g_beta_carotene]
        marker := none, linestyle := "--", color := "gray", label := none },
      { xs := df.map SweepPoint.g_oleic_acid
        ys := df.map SweepPoint.g_co2
        marker := some "o", linestyle := "-", color := "green"
        label := some "CO2 Loss (g/g)" },
      { xs := [first_point.g_oleic_acid, last_point.g_oleic_acid]
        ys := [first_point.g_co2, last_point.g_co2]
        marker := none, linestyle := "--", color := "gray", label := none } ]
  | _, _ => none

/-- A stub solver returning a fixed objective value `V` (mmol) and a fixed
CO2 exchange flux `C` (mmol) for every call. -/
def stubSolver (V C : ℚ) : Solver :=
  fun _ => some { objective_value := V
                  fluxes := fun k => if k = "EX_co2(e)" then some C else none }

/-- An empty medium to instantiate concrete runs with. -/
def emptyModel : Model := { medium := fun _ => none }

/-- A solver for which every solve is infeasible. -/
def infeasibleSolver : Solver := fun _ => none

/-- The equality-constraint list formulated at sweep step `val`
(`constraints = f'EX_glc_e = {-1 * mmol_glucose}, EX_ocdcea_e = {-1*mmol_oleic_acid}'`
with `g_glucose = val * 0.025` and `g_oleic_acid = 1 - g_glucose`). -/
def sweepConstraints (val : ℕ) : List (String × ℚ) :=
  [("EX_glc_e", -1 * (1000 * ((val : ℚ) * 0.025) / glucose_molar_mass)),
   ("EX_ocdcea_e", -1 * (1000 * (1 - (val : ℚ) * 0.025) / oleic_acid_molar_mass))]

/-- The table produced by a sweep against `stubSolver 2 3`. -/
def stubTable : List SweepPoint :=
  (List.range' 0 41).map fun v =>
    { g_glucose := (v : ℚ) * 0.025, g_oleic_acid := 1 - (v : ℚ) * 0.025,
      g_beta_carotene := 2 / 1000 * beta_carotene_molar_mass,
      g_co2 := 3 / 1000 * 44.01 }

/-! Shared helper lemmas. -/

lemma max_beta_fst (s : Solver) (m : Model) (g go : ℚ) :
    (max_beta_carotene_production_from_oleic_acid s m g go).1 =
      { medium := (fbaCall m g go).mediumState } := by
  simp only [max_beta_carotene_production_from_oleic_acid]
  rcases h : s (fbaCall m g go) with _ | sol
  · rfl
  · rcases h2 : sol.fluxes "EX_co2(e)" with _ | c
    · simp [h2]
    · simp [h2]

lemma configuredMedium_glc (m : Medium) (a b : ℚ) :
    configuredMedium m a b "EX_glc_e" = some a := by
  simp [configuredMedium, mediumSet]

lemma configuredMedium_ocdcea (m : Medium) (a b : ℚ) :
    configuredMedium m a b "EX_ocdcea_e" = some b := by
  simp [configuredMedium, mediumSet]

lemma configuredMedium_glyc (m : Medium) (a b : ℚ) :
    configuredMedium m a b "EX_glyc_e" = some 0 := by
  simp [configuredMedium, mediumSet]

lemma configuredMedium_h2o (m : Medium) (a b : ℚ) :
    configuredMedium m a b "EX_h2o_e" = some 10000 := by
  simp [configuredMedium, mediumSet]

lemma configuredMedium_h (m : Medium) (a b : ℚ) :
    configuredMedium m a b "EX_h_e" = some 10000 := by
  simp [configuredMedium, mediumSet]

lemma configuredMedium_nh4 (m : Medium) (a b : ℚ) :
    configuredMedium m a b "EX_nh4_e" = some 10000 := by
  simp [configuredMedium, mediumSet]

lemma configuredMedium_o2 (m : Medium) (a b : ℚ) :
    configuredMedium m a b "EX_o2_e" = some 10000 := by
  simp [configuredMedium, mediumSet]

lemma configuredMedium_pi (m : Medium) (a b : ℚ) :
    configuredMedium m a b "EX_pi_e" = some 10000 := by
  simp [configuredMedium, mediumSet]

lemma configuredMedium_so4 (m : Medium) (a b : ℚ) :
    configuredMedium m a b "EX_so4_e" = some 10000 := by
  simp [configuredMedium, mediumSet]

lemma configuredMedium_trehalose (m : Medium) (a b : ℚ) :
    configuredMedium m a b "trehalose_c_tp" = some 0 := by
  simp [configuredMedium, mediumSet]

lemma configuredMedium_frame (m : Medium) (a b : ℚ) (k : String)
    (h : k ∉ ["EX_glc_e", "EX_ocdcea_e", "EX_glyc_e", "EX_h2o_e", "EX_h_e",
      "EX_nh4_e", "EX_o2_e", "EX_pi_e", "EX_so4_e", "trehalose_c_tp"]) :
    configuredMedium m a b k = m k := by
  simp only [List.mem_cons, List.not_mem_nil, or_false, not_or] at h
  obtain ⟨h1, h2, h3, h4, h5, h6, h7, h8, h9, h10⟩ := h
  simp [configuredMedium, mediumSet, h1, h2, h3, h4, h5, h6, h7, h8, h9, h10]

lemma max_beta_stub (V C : ℚ) (m : Model) (g go : ℚ) :
    max_beta_carotene_production_from_oleic_acid (stubSolver V C) m g go =
      ({ medium := (fbaCall m g go).mediumState },
        some (V / 1000 * beta_carotene_molar_mass, C / 1000 * 44.01)) := by
  simp [max_beta_carotene_production_from_oleic_acid, stubSolver]

lemma sweepAux_stub (V C : ℚ) :
    ∀ (n lo : ℕ) (m : Model), ∃ mEnd,
      sweepAux (stubSolver V C) m lo n = some (mEnd, (List.range' lo n).map fun v =>
        { g_glucose := (v : ℚ) * 0.025, g_oleic_acid := 1 - (v : ℚ) * 0.025,
          g_beta_carotene := V / 1000 * beta_carotene_molar_mass,
          g_co2 := C / 1000 * 44.01 }) := by
  intro n
  induction n with
  | zero => intro lo m; exact ⟨m, rfl⟩
  | succ n IH =>
    intro lo m
    obtain ⟨mEnd, hE⟩ := IH (lo + 1)
      { medium := (fbaCall m ((lo : ℚ) * 0.025) (1 - (lo : ℚ) * 0.025)).mediumState }
    refine ⟨mEnd, ?_⟩
    simp only [sweepAux, max_beta_stub, hE, List.range'_succ, List.map_cons]

lemma sweepAux_spec (s : Solver) :
    ∀ (n lo : ℕ) (m mEnd : Model) (pts : List SweepPoint),
      sweepAux s m lo n = some (mEnd, pts) →
      pts.length = n ∧
      ∀ i (h : i < pts.length),
        (pts.get ⟨i, h⟩).g_glucose = ((lo + i : ℕ) : ℚ) * 0.025 ∧
        (pts.get ⟨i, h⟩).g_oleic_acid = 1 - ((lo + i : ℕ) : ℚ) * 0.025 := by
  intro n
  induction n with
  | zero =>
    intro lo m mEnd pts h
    simp only [sweepAux, Option.some.injEq, Prod.mk.injEq] at h
    obtain ⟨-, h2⟩ := h
    subst h2
    simp
  | succ n IH =>
    intro lo m mEnd pts h
    simp only [sweepAux] at h
    split at h
    · simp at h
    · rename_i model' pr heq
      split at h
      · simp at h
      · rename_i modelEnd pts' heq2
        simp only [Option.some.injEq, Prod.mk.injEq] at h
        obtain ⟨-, h2⟩ := h
        subst h2
        obtain ⟨hlen, hidx⟩ := IH (lo + 1) model' modelEnd pts' heq2
        constructor
        · simp [hlen]
        · intro i hi
          cases i with
          | zero => simp
          | succ i =>
            have hi' : i < pts'.length := by simpa using hi
            have hfields := hidx i hi'
            have harith : ((lo + 1 + i : ℕ) : ℚ) = ((lo + (i + 1) : ℕ) : ℚ) := by
              push_cast; ring
            simpa [harith] using hfields

lemma generate_eq_some (s : Solver) (m : Model) (pts : List SweepPoint)
    (h : generate_beta_carotene_yield_df s m = some pts) :
    ∃ mEnd, sweepAux s m 0 41 = some (mEnd, pts) := by
  unfold generate_beta_carotene_yield_df at h
  rcases hs : sweepAux s m 0 41 with _ | ⟨mE, pts0⟩
  · rw [hs] at h; simp at h
  · rw [hs] at h
    simp only [Option.map_some', Option.some.injEq] at h
    exact ⟨mE, by rw [h]⟩

lemma generate_stub_table (V C : ℚ) (m : Model) :
    generate_beta_carotene_yield_df (stubSolver V C) m =
      some ((List.range' 0 41).map fun v =>
        { g_glucose := (v : ℚ) * 0.025, g_oleic_acid := 1 - (v : ℚ) * 0.025,
          g_beta_carotene := V / 1000 * beta_carotene_molar_mass,
          g_co2 := C / 1000 * 44.01 }) := by
  obtain ⟨mEnd, hE⟩ := sweepAux_stub V C 41 0 m
  unfold generate_beta_carotene_yield_df
  rw [hE]
  rfl

lemma generate_stubTable :
    generate_beta_carotene_yield_df (stubSolver 2 3) emptyModel = some stubTable :=
  generate_stub_table 2 3 emptyModel

/-! Claim theorems. -/

/-- Claim C1: every table the sweep generator returns has exactly 41 rows in
order of increasing glucose fraction; row `i` (for every `i` in `[0, 40]`)
has `glucose_grams = i * 0.025` and `oleic_acid_grams = 1 - i * 0.025`; in
particular row 0 is `(0.0, 1.0)` and row 40 is `(1.0, 0.0)`. -/
theorem generate_df_rows (s : Solver) (m : Model) (pts : List SweepPoint)
    (h : generate_beta_carotene_yield_df s m = some pts) :
    pts.length = 41 ∧
    (∀ i (hi : i < pts.length),
      (pts.get ⟨i, hi⟩).g_glucose = (i : ℚ) * 0.025 ∧
      (pts.get ⟨i, hi⟩).g_oleic_acid = 1 - (i : ℚ) * 0.025) ∧
    (∀ i j (hi : i < pts.length) (hj : j < pts.length), i < j →
      (pts.get ⟨i, hi⟩).g_glucose < (pts.get ⟨j, hj⟩).g_glucose) ∧
    (∀ h0 : 0 < pts.length,
      (pts.get ⟨0, h0⟩).g_glucose = 0 ∧ (pts.get ⟨0, h0⟩).g_oleic_acid = 1) ∧
    (∀ h40 : 40 < pts.length,
      (pts.get ⟨40, h40⟩).g_glucose = 1 ∧ (pts.get ⟨40, h40⟩).g_oleic_acid = 0) := by
  obtain ⟨mEnd, hs⟩ := generate_eq_some s m pts h
  obtain ⟨hlen, hidx⟩ := sweepAux_spec s 41 0 m mEnd pts hs
  have hidx' : ∀ i (hi : i < pts.length),
      (pts.get ⟨i, hi⟩).g_glucose = (i : ℚ) * 0.025 ∧
      (pts.get ⟨i, hi⟩).g_oleic_acid = 1 - (i : ℚ) * 0.025 := by
    intro i hi
    simpa using hidx i hi
  refine ⟨hlen, hidx', ?_, ?_, ?_⟩
  · intro i j hi hj hij
    rw [(hidx' i hi).1, (hidx' j hj).1]
    have hcast : (i : ℚ) < (j : ℚ) := by exact_mod_cast hij
    have hpos : (0 : ℚ) < 0.025 := by norm_num
    exact mul_lt_mul_of_pos_right hcast hpos
  · intro h0
    have h00 := hidx' 0 h0
    norm_num at h00
    exact h00
  · intro h40
    have h4040 := hidx' 40 h40
    norm_num at h4040
    exact h4040

/-- Witness for C1: a concrete sweep against a stub solver. -/
theorem generate_df_rows_witness :
    generate_beta_carotene_yield_df (stubSolver 2 3) emptyModel = some stubTable ∧
    (stubTable.length = 41 ∧
      (∀ i (hi : i < stubTable.length),
        (stubTable.get ⟨i, hi⟩).g_glucose = (i : ℚ) * 0.025 ∧
        (stubTable.get ⟨i, hi⟩).g_oleic_acid = 1 - (i : ℚ) * 0.025) ∧
      (∀ i j (hi : i < stubTable.length) (hj : j < stubTable.length), i < j →
        (stubTable.get ⟨i, hi⟩).g_glucose < (stubTable.get ⟨j, hj⟩).g_glucose) ∧
      (∀ h0 : 0 < stubTable.length,
        (stubTable.get ⟨0, h0⟩).g_glucose = 0 ∧ (stubTable.get ⟨0, h0⟩).g_oleic_acid = 1) ∧
      (∀ h40 : 40 < stubTable.length,
        (stubTable.get ⟨40, h40⟩).g_glucose = 1 ∧ (stubTable.get ⟨40, h40⟩).g_oleic_acid = 0)) :=
  ⟨generate_stubTable, generate_df_rows _ _ _ generate_stubTable⟩

/-- Claim C2: for every row of every table the sweep generator returns,
`glucose_grams + oleic_acid_grams = 1` (exactly, hence within `1e-9`). -/
theorem generate_df_mass_balance (s : Solver) (m : Model) (pts : List SweepPoint)
    (h : generate_beta_carotene_yield_df s m = some pts) :
    ∀ i (hi : i < pts.length),
      (pts.get ⟨i, hi⟩).g_glucose + (pts.get ⟨i, hi⟩).g_oleic_acid = 1 ∧
      |(pts.get ⟨i, hi⟩).g_glucose + (pts.get ⟨i, hi⟩).g_oleic_acid - 1|
        ≤ 1 / 1000000000 := by
  obtain ⟨mEnd, hs⟩ := generate_eq_some s m pts h
  obtain ⟨-, hidx⟩ := sweepAux_spec s 41 0 m mEnd pts hs
  intro i hi
  obtain ⟨h1, h2⟩ := hidx i hi
  rw [h1, h2]
  refine ⟨by ring, ?_⟩
  have hz : ((0 + i : ℕ) : ℚ) * 0.025 + (1 - ((0 + i : ℕ) : ℚ) * 0.025) - 1 = 0 := by
    ring
  rw [hz]
  norm_num

/-- Witness for C2: a concrete sweep against a stub solver. -/
theorem generate_df_mass_balance_witness :
    generate_beta_carotene_yield_df (stubSolver 2 3) emptyModel = some stubTable ∧
    ∀ i (hi : i < stubTable.length),
      (stubTable.get ⟨i, hi⟩).g_glucose + (stubTable.get ⟨i, hi⟩).g_oleic_acid = 1 ∧
      |(stubTable.get ⟨i, hi⟩).g_glucose + (stubTable.get ⟨i, hi⟩).g_oleic_acid - 1|
        ≤ 1 / 1000000000 :=
  ⟨generate_stubTable, generate_df_mass_balance _ _ _ generate_stubTable⟩

/-- Claim C3: with a stub solver returning fixed objective value `V` (mmol)
and fixed CO2 flux `C` (mmol) on every call, the sweep returns a table whose
41 rows all have `beta_carotene_grams = V/1000 * 536.87` and
`co2_grams = C/1000 * 44.01`, identical across rows. -/
theorem generate_df_stub_solver (V C : ℚ) (m : Model) :
    ∃ pts, generate_beta_carotene_yield_df (stubSolver V C) m = some pts ∧
      pts.length = 41 ∧
      ∀ p ∈ pts, p.g_beta_carotene = V / 1000 * 536.87 ∧
        p.g_co2 = C / 1000 * 44.01 := by
  refine ⟨_, generate_stub_table V C m, ?_, ?_⟩
  · simp
  · intro p hp
    simp only [List.mem_map] at hp
    obtain ⟨v, -, rfl⟩ := hp
    exact ⟨by norm_num [beta_carotene_molar_mass], rfl⟩

/-- Claim C4, counterexample: the round trip fails at gram amount `1` and
molar mass `0` (the code divides by the molar mass, so mass `0` is a
zero division, not an identity). -/
theorem grams_mmol_roundtrip_cex :
    ¬ |grams_to_mmol (mmol_to_grams 1 0) 0 - 1| ≤ 1 / 1000000000 := by
  norm_num [grams_to_mmol, mmol_to_grams]

/-- Claim C4 (amended): for every gram amount `g` and every nonzero molar
mass, `grams_to_mmol (mmol_to_grams g molar_mass) molar_mass = g`, exactly
and hence within tolerance `1e-9`. -/
theorem grams_mmol_roundtrip (g molar_mass : ℚ) (h : molar_mass ≠ 0) :
    grams_to_mmol (mmol_to_grams g molar_mass) molar_mass = g ∧
    |grams_to_mmol (mmol_to_grams g molar_mass) molar_mass - g|
      ≤ 1 / 1000000000 := by
  have he : grams_to_mmol (mmol_to_grams g molar_mass) molar_mass = g := by
    simp only [grams_to_mmol, mmol_to_grams]
    field_simp
  refine ⟨he, ?_⟩
  rw [he]
  norm_num

/-- Witness for C4 at `g = 7` and the glucose molar mass. -/
theorem grams_mmol_roundtrip_witness :
    (180.16 : ℚ) ≠ 0 ∧
    (grams_to_mmol (mmol_to_grams 7 180.16) 180.16 = 7 ∧
      |grams_to_mmol (mmol_to_grams 7 180.16) 180.16 - 7| ≤ 1 / 1000000000) :=
  ⟨by norm_num, grams_mmol_roundtrip 7 180.16 (by norm_num)⟩

lemma fbaCall_mediumState (m : Model) (g go : ℚ) :
    (fbaCall m g go).mediumState =
      configuredMedium m.medium (1000 * g / glucose_molar_mass)
        (1000 * go / oleic_acid_molar_mass) := rfl

/-- Claim C5: at step index 0 (pure oleic acid) the per-point computation sets
the glucose uptake bound in the medium to `0` mmol and the oleic-acid uptake
bound to `1000/282.47` mmol; at step index 40 (pure glucose) it sets the
oleic-acid bound to `0` mmol and the glucose bound to `1000/180.16` mmol. -/
theorem medium_bounds_at_endpoints (s : Solver) (m : Model) :
    ((max_beta_carotene_production_from_oleic_acid s m ((0 : ℚ) * 0.025)
        (1 - (0 : ℚ) * 0.025)).1.medium "EX_glc_e" = some 0 ∧
      (max_beta_carotene_production_from_oleic_acid s m ((0 : ℚ) * 0.025)
        (1 - (0 : ℚ) * 0.025)).1.medium "EX_ocdcea_e" = some (1000 / 282.47)) ∧
    ((max_beta_carotene_production_from_oleic_acid s m ((40 : ℚ) * 0.025)
        (1 - (40 : ℚ) * 0.025)).1.medium "EX_ocdcea_e" = some 0 ∧
      (max_beta_carotene_production_from_oleic_acid s m ((40 : ℚ) * 0.025)
        (1 - (40 : ℚ) * 0.025)).1.medium "EX_glc_e" = some (1000 / 180.16)) := by
  simp only [max_beta_fst, fbaCall_mediumState, configuredMedium_glc,
    configuredMedium_ocdcea]
  norm_num [glucose_molar_mass, oleic_acid_molar_mass]

/-- Claim C6: on every call the per-point computation writes the configured
medium into the model (the same medium the solver call carries): the two
computed substrate bounds, `EX_glyc_e` and `trehalose_c_tp` disabled at `0`,
and `EX_h2o_e`, `EX_h_e`, `EX_nh4_e`, `EX_o2_e`, `EX_pi_e`, `EX_so4_e`
uncapped at `10000`. -/
theorem medium_sentinel_bounds (s : Solver) (m : Model) (g_glucose g_oleic_acid : ℚ) :
    (max_beta_carotene_production_from_oleic_acid s m g_glucose g_oleic_acid).1.medium
        = (fbaCall m g_glucose g_oleic_acid).mediumState ∧
    (fbaCall m g_glucose g_oleic_acid).mediumState "EX_glc_e"
        = some (1000 * g_glucose / 180.16) ∧
    (fbaCall m g_glucose g_oleic_acid).mediumState "EX_ocdcea_e"
        = some (1000 * g_oleic_acid / 282.47) ∧
    (fbaCall m g_glucose g_oleic_acid).mediumState "EX_glyc_e" = some 0 ∧
    (fbaCall m g_glucose g_oleic_acid).mediumState "trehalose_c_tp" = some 0 ∧
    (fbaCall m g_glucose g_oleic_acid).mediumState "EX_h2o_e" = some 10000 ∧
    (fbaCall m g_glucose g_oleic_acid).mediumState "EX_h_e" = some 10000 ∧
    (fbaCall m g_glucose g_oleic_acid).mediumState "EX_nh4_e" = some 10000 ∧
    (fbaCall m g_glucose g_oleic_acid).mediumState "EX_o2_e" = some 10000 ∧
    (fbaCall m g_glucose g_oleic_acid).mediumState "EX_pi_e" = some 10000 ∧
    (fbaCall m g_glucose g_oleic_acid).mediumState "EX_so4_e" = some 10000 := by
  refine ⟨by rw [max_beta_fst], ?_⟩
  simp only [fbaCall_mediumState, configuredMedium_glc, configuredMedium_ocdcea,
    configuredMedium_glyc, configuredMedium_trehalose, configuredMedium_h2o,
    configuredMedium_h, configuredMedium_nh4, configuredMedium_o2,
    configuredMedium_pi, configuredMedium_so4]
  norm_num [glucose_molar_mass, oleic_acid_molar_mass]

/-- Claim C7: for every sweep point the solver is invoked exactly once, on the
single call `fbaCall`, whose objective is maximizing `EX_caro_e` flux and
whose equality constraints pin the glucose exchange flux to minus the computed
glucose millimoles and the oleic-acid exchange flux to minus the computed
oleic-acid millimoles; the per-point result depends on the solver only
through its value at that one call. -/
theorem solver_called_once (m : Model) (g_glucose g_oleic_acid : ℚ) (s s' : Solver)
    (h : s (fbaCall m g_glucose g_oleic_acid) = s' (fbaCall m g_glucose g_oleic_acid)) :
    (fbaCall m g_glucose g_oleic_acid).obj = "EX_caro_e" ∧
    (fbaCall m g_glucose g_oleic_acid).obj_sense = "maximize" ∧
    (fbaCall m g_glucose g_oleic_acid).constraints =
      [("EX_glc_e", -1 * (1000 * g_glucose / 180.16)),
       ("EX_ocdcea_e", -1 * (1000 * g_oleic_acid / 282.47))] ∧
    max_beta_carotene_production_from_oleic_acid s m g_glucose g_oleic_acid =
      max_beta_carotene_production_from_oleic_acid s' m g_glucose g_oleic_acid := by
  refine ⟨rfl, rfl, rfl, ?_⟩
  simp only [max_beta_carotene_production_from_oleic_acid]
  rw [h]

/-- Witness for C7 at a concrete model, substrate split and solver pair. -/
theorem solver_called_once_witness :
    stubSolver 2 3 (fbaCall emptyModel 0 1) = stubSolver 2 3 (fbaCall emptyModel 0 1) ∧
    ((fbaCall emptyModel 0 1).obj = "EX_caro_e" ∧
      (fbaCall emptyModel 0 1).obj_sense = "maximize" ∧
      (fbaCall emptyModel 0 1).constraints =
        [("EX_glc_e", -1 * (1000 * 0 / 180.16)),
         ("EX_ocdcea_e", -1 * (1000 * 1 / 282.47))] ∧
      max_beta_carotene_production_from_oleic_acid (stubSolver 2 3) emptyModel 0 1 =
        max_beta_carotene_production_from_oleic_acid (stubSolver 2 3) emptyModel 0 1) :=
  ⟨rfl, solver_called_once emptyModel 0 1 (stubSolver 2 3) (stubSolver 2 3) rfl⟩

lemma fbaCall_constraints_step (m : Model) (k : ℕ) :
    (fbaCall m ((k : ℚ) * 0.025) (1 - (k : ℚ) * 0.025)).constraints =
      sweepConstraints k := rfl

lemma max_beta_fails (s : Solver) (m : Model) (k : ℕ)
    (hfail : ∀ call : SolveCall, call.constraints = sweepConstraints k →
      s call = none ∨ ∃ sol, s call = some sol ∧ sol.fluxes "EX_co2(e)" = none) :
    (max_beta_carotene_production_from_oleic_acid s m ((k : ℚ) * 0.025)
      (1 - (k : ℚ) * 0.025)).2 = none := by
  rcases hfail _ (fbaCall_constraints_step m k) with hnone | ⟨sol, hsol, hflux⟩
  · simp [max_beta_carotene_production_from_oleic_acid, hnone]
  · simp [max_beta_carotene_production_from_oleic_acid, hsol, hflux]

lemma sweepAux_fails (s : Solver) (k : ℕ)
    (hfail : ∀ call : SolveCall, call.constraints = sweepConstraints k →
      s call = none ∨ ∃ sol, s call = some sol ∧ sol.fluxes "EX_co2(e)" = none) :
    ∀ (n lo : ℕ) (m : Model), lo ≤ k → k < lo + n → sweepAux s m lo n = none := by
  intro n
  induction n with
  | zero => intro lo m h1 h2; omega
  | succ n IH =>
    intro lo m h1 h2
    simp only [sweepAux]
    split
    · rfl
    · rename_i model' pr heq
      rcases Nat.eq_or_lt_of_le h1 with rfl | hlt
      · have hf := max_beta_fails s m lo hfail
        rw [heq] at hf
        simp at hf
      · have hrec := IH (lo + 1) model' (by omega) (by omega)
        simp [hrec]

/-- Claim C8: if at any sweep step `k` the solver reports infeasibility or its
flux mapping has no `EX_co2(e)` entry, the whole sweep fails: the generator
returns `none` (no table at all, in particular no table with fewer rows). -/
theorem sweep_error_propagates (s : Solver) (m : Model) (k : ℕ) (hk : k < 41)
    (hfail : ∀ call : SolveCall, call.constraints = sweepConstraints k →
      s call = none ∨ ∃ sol, s call = some sol ∧ sol.fluxes "EX_co2(e)" = none) :
    generate_beta_carotene_yield_df s m = none := by
  unfold generate_beta_carotene_yield_df
  rw [sweepAux_fails s k hfail 41 0 m (Nat.zero_le k) (by omega)]
  rfl

/-- Witness for C8: a solver that is infeasible on every call aborts the sweep. -/
theorem sweep_error_propagates_witness :
    ((0 : ℕ) < 41 ∧
      (∀ call : SolveCall, call.constraints = sweepConstraints 0 →
        infeasibleSolver call = none ∨
          ∃ sol, infeasibleSolver call = some sol ∧ sol.fluxes "EX_co2(e)" = none)) ∧
    generate_beta_carotene_yield_df infeasibleSolver emptyModel = none :=
  ⟨⟨by norm_num, fun _ _ => Or.inl rfl⟩,
    sweep_error_propagates infeasibleSolver emptyModel 0 (by norm_num)
      (fun _ _ => Or.inl rfl)⟩

/-- Claim C9: on the 2-row table `[(0, 1, 0.1, 0.05), (1, 0, 0.9, 0.4)]` the
dashed reference line of the beta-carotene yield series (the second plotted
series) connects `(x = 1, y = 0.1)` to `(x = 0, y = 0.9)` exactly, using
`oleic_acid_grams` of the first and last rows as x-coordinates. -/
theorem plot_reference_line :
    ∃ series, plot_beta_carotene_and_co2_yield
        [{ g_glucose := 0, g_oleic_acid := 1, g_beta_carotene := 0.1, g_co2 := 0.05 },
         { g_glucose := 1, g_oleic_acid := 0, g_beta_carotene := 0.9, g_co2 := 0.4 }]
        = some series ∧
      series[1]? = some
        { xs := [1, 0], ys := [0.1, 0.9], marker := none,
          linestyle := "--", color := "gray", label := none } := by
  exact ⟨_, rfl, rfl⟩

/-- Claim C10: the medium configuration is frame-preserving outside its ten
target keys: every other medium entry keeps exactly the value it had before
the per-point call. -/
theorem medium_frame_preservation (s : Solver) (m : Model) (g_glucose g_oleic_acid : ℚ)
    (k : String)
    (h : k ∉ ["EX_glc_e", "EX_ocdcea_e", "EX_glyc_e", "EX_h2o_e", "EX_h_e",
      "EX_nh4_e", "EX_o2_e", "EX_pi_e", "EX_so4_e", "trehalose_c_tp"]) :
    (max_beta_carotene_production_from_oleic_acid s m g_glucose g_oleic_acid).1.medium k
      = m.medium k := by
  rw [max_beta_fst]
  exact configuredMedium_frame m.medium _ _ k h

/-- Witness for C10 at the key `EX_co2(e)`. -/
theorem medium_frame_preservation_witness :
    ("EX_co2(e)" ∉ ["EX_glc_e", "EX_ocdcea_e", "EX_glyc_e", "EX_h2o_e", "EX_h_e",
      "EX_nh4_e", "EX_o2_e", "EX_pi_e", "EX_so4_e", "trehalose_c_tp"]) ∧
    (max_beta_carotene_production_from_oleic_acid (stubSolver 2 3) emptyModel 0 1).1.medium
        "EX_co2(e)" = emptyModel.medium "EX_co2(e)" :=
  ⟨by decide, medium_frame_preservation (stubSolver 2 3) emptyModel 0 1 "EX_co2(e)"
    (by decide)⟩
